import Mathlib

set_option maxHeartbeats 1000000

/-!
Shallow embedding of the per-deployment indexing engine in
core/src/subgraph/instance_manager.rs.

External collaborators (store, chain adapter, mapping runtime, block stream)
are parameters: their responses are supplied as inputs (oracle fields of the
environment records), and the calls the engine makes that mutate the store are
recorded in an explicit trace of StoreAction values. Pure control flow, state
threading and the classification of errors are translated directly from the
Rust source. A few leaf operations whose implementation lives outside this
repository slice (SubgraphInstance.revert_data_sources,
SubgraphInstance.add_dynamic_data_source, Block.parent_ptr) are modelled from
the specification; each such definition says so in its doc comment.
-/

/-- The entity LFU cache (graph::util::lfu_cache::LfuCache), keyed by entity
key with optional entity values; only emptiness and identity of the cache
matter to the claims, so it is modelled as an association list. -/
abbrev LfuCache := List (Nat × Option Nat)

/-- LfuCache::new, also the value std::mem::take leaves behind. -/
def LfuCache.new : LfuCache := []

/-- EthereumBlockPointer: (number, hash). Hashes are opaque numbers. -/
structure EthereumBlockPointer where
  number : Nat
  hash : Nat
deriving DecidableEq

/-- SubgraphError restricted to what the engine inspects: an opaque message
and the deterministic flag. -/
structure SubgraphError where
  message : Nat
  deterministic : Bool
deriving DecidableEq

/-- MappingError as returned by the mapping runtime. -/
inductive MappingError where
  | unknown (e : Nat)
  | possibleReorg (e : Nat)
deriving DecidableEq

/-- BlockProcessingError from instance_manager.rs. -/
inductive BlockProcessingError where
  | unknown (e : Nat)
  | deterministic (e : SubgraphError)
  | canceled
deriving DecidableEq

/-- BlockProcessingError::is_deterministic. -/
def BlockProcessingError.is_deterministic : BlockProcessingError → Bool
  | .deterministic _ => true
  | _ => false

/-- Subgraph manifest features; only nonFatalErrors is inspected by this file's
source. -/
inductive SubgraphFeature where
  | nonFatalErrors
deriving DecidableEq

/-- A (dynamic) data source: an opaque name plus the block number at which it
was created, which drives revert truncation. -/
structure DataSource where
  name : Nat
  created_at : Nat
deriving DecidableEq

/-- DataSourceTemplateInfo, opaque to the engine. -/
abbrev DataSourceTemplateInfo := Nat

/-- The per-block EntityCache write buffer: the LFU cache moved in at
BlockState::new, entity writes (for example POI entities), and dynamic data
sources queued for persistence. -/
structure EntityCache where
  lfu : LfuCache
  sets : List (Nat × Nat)
  data_sources : List DataSource
deriving DecidableEq

/-- EntityCache::add_data_source. -/
def EntityCache.add_data_source (ec : EntityCache) (ds : DataSource) : EntityCache :=
  { ec with data_sources := ec.data_sources ++ [ds] }

/-- BlockState: per-block scratch state. -/
structure BlockState where
  entity_cache : EntityCache
  deterministic_errors : List SubgraphError
  created_data_sources : List DataSourceTemplateInfo
deriving DecidableEq

/-- BlockState::new(store, lfu_cache): fresh block state owning the cache. -/
def BlockState.new (cache : LfuCache) : BlockState :=
  { entity_cache := { lfu := cache, sets := [], data_sources := [] },
    deterministic_errors := [], created_data_sources := [] }

/-- BlockState::has_errors. -/
def BlockState.has_errors (bs : BlockState) : Bool :=
  !bs.deterministic_errors.isEmpty

/-- BlockState::has_created_data_sources. -/
def BlockState.has_created_data_sources (bs : BlockState) : Bool :=
  !bs.created_data_sources.isEmpty

/-- The read-only IndexingInputs the claims inspect. -/
structure IndexingInputs where
  deployment_id : Nat
  features : List SubgraphFeature
deriving DecidableEq

/-- The mutable IndexingState: the SubgraphInstance (modelled as the list of
data sources with live runtime hosts), the three composite filters (modelled
as lists of opaque filter atoms), and the entity LFU cache. -/
structure IndexingState where
  instance_ : List DataSource
  log_filter : List Nat
  call_filter : List Nat
  block_filter : List Nat
  entity_lfu_cache : LfuCache
deriving DecidableEq

/-- IndexingContext: inputs plus state (metrics carry no engine-visible state
and are omitted; metric observations relevant to claims are modelled where
named, e.g. the reverted_blocks gauge in the run loop state). -/
structure IndexingContext where
  inputs : IndexingInputs
  state : IndexingState
deriving DecidableEq

/-- A block delivered by the block stream: its pointer, its parent hash and
its (opaque) triggers. -/
structure BlockInfo where
  ptr : EthereumBlockPointer
  parent_hash : Nat
  triggers : List Nat
deriving DecidableEq

/-- Modelled from the spec: Block::parent_ptr (implemented outside this
repository slice) yields the pointer of the parent block, and is None exactly
for the genesis block, whence the source's expectation that a genesis block
cannot be reverted. -/
def BlockInfo.parent_ptr (b : BlockInfo) : Option EthereumBlockPointer :=
  if b.ptr.number = 0 then none
  else some { number := b.ptr.number - 1, hash := b.parent_hash }

/-- The store mutations the engine can perform, recorded as a trace. Store
reads (supports_proof_of_indexing, is_deployment_synced, entity reads) are
not mutations and are answered by the environment instead. -/
inductive StoreAction where
  | transact (ptr : EthereumBlockPointer) (mods : List Nat)
      (data_sources : List DataSource) (errors : List SubgraphError)
  | unassign
  | unfail
  | revert (parent : EthereumBlockPointer)
  | failSubgraph (deterministic : Bool)
deriving DecidableEq

/-- Recognizer for transact actions. -/
def StoreAction.isTransact : StoreAction → Bool
  | .transact _ _ _ _ => true
  | _ => false

/-- Recognizer for unfail actions. -/
def StoreAction.isUnfail : StoreAction → Bool
  | .unfail => true
  | _ => false

/-- Number of unfail calls in a trace. -/
def countUnfail (tr : List StoreAction) : Nat :=
  tr.countP (fun a => a.isUnfail)

/-- Result of a computation in the engine: a value, a classified block
processing error, a Rust panic (assert!/assert_eq!/expect/unwrap), or
exhaustion of the finite oracle modelling an unbounded loop. -/
inductive Outcome (α : Type) where
  | ok (a : α)
  | err (e : BlockProcessingError)
  | panicked (s : String)
  | fuelOut
deriving DecidableEq

/-- Oracle for one iteration of the dynamic-data-source while loop:
DataSource::try_from for each drained template info, the
triggers_in_block response, and the mapping runtime's behaviour
(process_trigger_in_runtime_hosts) for the refetched triggers. -/
structure DynRound where
  try_from : DataSourceTemplateInfo → Except Nat DataSource
  triggers_in_block : Except Nat (List Nat)
  dispatch : Nat → BlockState → Except MappingError BlockState

/-- Environment of process_block: collaborator responses and configuration.
dispatch is the mapping runtime behind SubgraphInstance::process_trigger;
update_poi abstracts update_proof_of_indexing's effect on the entity cache
(its POI reads and digests are external); as_modifications is
EntityCache::as_modifications; evict is LfuCache::evict at ENTITY_CACHE_SIZE;
disable_fail_fast is the GRAPH_DISABLE_FAIL_FAST environment variable. -/
structure ProcessBlockEnv where
  supports_poi : Except Nat Bool
  dispatch : Nat → BlockState → Except MappingError BlockState
  rounds : List DynRound
  update_poi : EntityCache → Except Nat EntityCache
  as_modifications : EntityCache → Except Nat (List Nat × List DataSource × LfuCache)
  evict : LfuCache → LfuCache
  transact : Except Nat Unit
  disable_fail_fast : Bool
  is_deployment_synced : Except Nat Bool
  unassign : Except Nat Unit

/-- process_triggers: primary dispatch. Walks the block's triggers in order
through the mapping runtime, threading the BlockState; a MappingError is
propagated unchanged (the source only attaches a text context to it). -/
def process_triggers (d : Nat → BlockState → Except MappingError BlockState) :
    List Nat → BlockState → Except MappingError BlockState
  | [], bs => .ok bs
  | t :: ts, bs =>
    match d t bs with
    | .error e => .error e
    | .ok bs1 => process_triggers d ts bs1

/-- Modelled from the spec: SubgraphInstance::add_dynamic_data_source
(implemented outside this repository slice) skips a data source for which a
runtime host already exists (returning None after a warning) and otherwise
appends a host for it, returning Some. -/
def add_dynamic_data_source (ctx : IndexingContext) (ds : DataSource) :
    Option IndexingContext :=
  if ds ∈ ctx.state.instance_ then none
  else some { ctx with state :=
    { ctx.state with instance_ := ctx.state.instance_ ++ [ds] } }

/-- create_dynamic_data_sources: instantiate each drained template info via
DataSource::try_from (oracle), add a runtime host for it, and collect the
data sources for which a host was actually created (duplicates are skipped
with a warning). -/
def create_dynamic_data_sources (r : DynRound) :
    IndexingContext → List DataSourceTemplateInfo →
      Except Nat (IndexingContext × List DataSource)
  | ctx, [] => .ok (ctx, [])
  | ctx, info :: rest =>
    match r.try_from info with
    | .error e => .error e
    | .ok ds =>
      match add_dynamic_data_source ctx ds with
      | none =>
        create_dynamic_data_sources r ctx rest
      | some ctx1 =>
        match create_dynamic_data_sources r ctx1 rest with
        | .error e => .error e
        | .ok (ctx2, dss) => .ok (ctx2, ds :: dss)

/-- persist_dynamic_data_sources: record the new data sources in the entity
cache so they survive the commit, and extend the composite filters (filters
are only ever extended, never narrowed). -/
def persist_dynamic_data_sources (ctx : IndexingContext) (bs : BlockState)
    (dss : List DataSource) : IndexingContext × BlockState :=
  let ec1 := dss.foldl EntityCache.add_data_source bs.entity_cache
  let bs1 := { bs with entity_cache := ec1 }
  let ctx1 := { ctx with state := { ctx.state with
    log_filter := ctx.state.log_filter ++ dss.map DataSource.name,
    call_filter := ctx.state.call_filter ++ dss.map DataSource.name,
    block_filter := ctx.state.block_filter ++ dss.map DataSource.name } }
  (ctx1, bs1)

/-- The dispatch loop over refetched triggers inside the dynamic-data-source
expansion: process_trigger_in_runtime_hosts in creation order. Here both
MappingError variants are promoted to BlockProcessingError::Unknown — a
PossibleReorg raised after new runtime hosts were added to the context is not
recoverable. -/
def process_dyn_triggers (d : Nat → BlockState → Except MappingError BlockState) :
    List Nat → BlockState → Except BlockProcessingError BlockState
  | [], bs => .ok bs
  | t :: ts, bs =>
    match d t bs with
    | .error (.possibleReorg e) => .error (.unknown e)
    | .error (.unknown e) => .error (.unknown e)
    | .ok bs1 => process_dyn_triggers d ts bs1

/-- Result of the dynamic-data-source while loop. -/
inductive DynResult where
  | out
  | fail (e : BlockProcessingError)
  | done (ctx : IndexingContext) (bs : BlockState)
deriving DecidableEq

/-- The while block_state.has_created_data_sources loop of process_block:
drain created sources, instantiate them, refetch this block's triggers for
the new filters, persist the sources, dispatch the new triggers, repeat. Each
iteration consumes one oracle round; running out of rounds while sources are
still being created is DynResult.out (the source loop is unbounded). -/
def dyn_loop : IndexingContext → BlockState → List DynRound → DynResult
  | ctx, bs, rounds =>
    if bs.has_created_data_sources then
      match rounds with
      | [] => .out
      | r :: rest =>
        match create_dynamic_data_sources r ctx bs.created_data_sources with
        | .error e => .fail (.unknown e)
        | .ok (ctx1, dss) =>
          match r.triggers_in_block with
          | .error e => .fail (.unknown e)
          | .ok triggers =>
            match process_dyn_triggers r.dispatch triggers
                (persist_dynamic_data_sources ctx1
                  { bs with created_data_sources := [] } dss).2 with
            | .error e => .fail e
            | .ok bs2 =>
              dyn_loop
                (persist_dynamic_data_sources ctx1
                  { bs with created_data_sources := [] } dss).1 bs2 rest
    else .done ctx bs

/-- transact_block_operations plus the fail-fast policy (source lines
962-999): transact; on success, if deterministic errors were present and
fail-fast applies (GRAPH_DISABLE_FAIL_FAST unset and the deployment not yet
synced — evaluated in that short-circuit order), unassign the deployment and
return Canceled; otherwise return the context and the restart flag. -/
def transact_and_fail_fast (ctx : IndexingContext) (needs_restart has_errors : Bool)
    (block_ptr_after : EthereumBlockPointer) (mods : List Nat)
    (dss : List DataSource) (errors : List SubgraphError) (env : ProcessBlockEnv) :
    Outcome (IndexingContext × Bool) × List StoreAction :=
  match env.transact with
  | .error e =>
    (.err (.unknown e), [StoreAction.transact block_ptr_after mods dss errors])
  | .ok _ =>
    if has_errors then
      if env.disable_fail_fast then
        (.ok (ctx, needs_restart), [StoreAction.transact block_ptr_after mods dss errors])
      else
        match env.is_deployment_synced with
        | .error e =>
          (.err (.unknown e), [StoreAction.transact block_ptr_after mods dss errors])
        | .ok true =>
          (.ok (ctx, needs_restart), [StoreAction.transact block_ptr_after mods dss errors])
        | .ok false =>
          match env.unassign with
          | .error e =>
            (.err (.unknown e),
             [StoreAction.transact block_ptr_after mods dss errors, .unassign])
          | .ok _ =>
            (.err .canceled,
             [StoreAction.transact block_ptr_after mods dss errors, .unassign])
    else (.ok (ctx, needs_restart), [StoreAction.transact block_ptr_after mods dss errors])

/-- The tail of process_block after the dynamic-data-source loop: error
gating on deterministic errors vs the nonFatalErrors feature, the
cancellation point, the POI fold, as_modifications, eviction, the cache
reinstatement assertion, and the commit with fail-fast. -/
def finish_block (ctx : IndexingContext) (bs : BlockState)
    (needs_restart poi_supported canceled : Bool)
    (block_ptr : EthereumBlockPointer) (env : ProcessBlockEnv) :
    Outcome (IndexingContext × Bool) × List StoreAction :=
  if bs.has_errors && !(decide (SubgraphFeature.nonFatalErrors ∈ ctx.inputs.features)) then
    match bs.deterministic_errors with
    | [] => (.panicked "deterministic_errors.into_iter().next().unwrap()", [])
    | e :: _ => (.err (.deterministic e), [])
  else if canceled then (.err .canceled, [])
  else
    match (if poi_supported then env.update_poi bs.entity_cache
           else .ok bs.entity_cache) with
    | .error e => (.err (.unknown e), [])
    | .ok ec =>
      match env.as_modifications ec with
      | .error e => (.err (.unknown e), [])
      | .ok (mods, dss, next_cache) =>
        if ctx.state.entity_lfu_cache.isEmpty then
          transact_and_fail_fast
            { ctx with state :=
                { ctx.state with entity_lfu_cache := env.evict next_cache } }
            needs_restart bs.has_errors block_ptr mods dss bs.deterministic_errors env
        else (.panicked "assert ctx.state.entity_lfu_cache.is_empty", [])

/-- process_block: POI bootstrap, primary dispatch over a BlockState owning
the LFU cache moved out of the context (std::mem::take leaves an empty
placeholder), the PossibleReorg early return, the dynamic-data-source loop,
then finish_block. -/
def process_block (ctx : IndexingContext) (canceled : Bool) (block : BlockInfo)
    (env : ProcessBlockEnv) :
    Outcome (IndexingContext × Bool) × List StoreAction :=
  match env.supports_poi with
  | .error e => (.err (.unknown e), [])
  | .ok poi_supported =>
    match process_triggers env.dispatch block.triggers
        (BlockState.new ctx.state.entity_lfu_cache) with
    | .error (.unknown e) => (.err (.unknown e), [])
    | .error (.possibleReorg _) =>
      (.ok ({ ctx with state := { ctx.state with entity_lfu_cache := LfuCache.new } },
            true), [])
    | .ok bs =>
      match dyn_loop
          { ctx with state := { ctx.state with entity_lfu_cache := LfuCache.new } }
          bs env.rounds with
      | .out => (.fuelOut, [])
      | .fail e => (.err e, [])
      | .done ctx2 bs2 =>
        finish_block ctx2 bs2 bs.has_created_data_sources poi_supported canceled
          block.ptr env

/-- Modelled from the spec: SubgraphInstance::revert_data_sources (implemented
outside this repository slice) truncates the runtime hosts of dynamic data
sources created at or after the reverted block number — equivalently, those
with created_at greater than the parent's number. -/
def revert_data_sources (hosts : List DataSource) (number : Nat) : List DataSource :=
  hosts.filter (fun ds => decide (ds.created_at < number))

/-- Outcome of the Revert arm of the event loop: either a Rust panic, or
continue the inner loop with (possibly) updated context and reverted_blocks
gauge. -/
inductive RevertStep where
  | panicked (s : String)
  | next (ctx : IndexingContext) (gauge : Option Nat)
deriving DecidableEq

/-- The Revert(subgraph_ptr) arm of run_subgraph's inner loop: load the
reverted block by hash (adapter oracle; on error log and continue), assert
exactly one block came back, take its parent pointer (expect: genesis cannot
be reverted), call store.revert_block_operations(parent) (on error log and
continue without touching in-memory state); on success set the
reverted_blocks gauge to the reverted block's number, truncate dynamic data
sources at the reverted number and replace the LFU cache with a fresh one. -/
def handle_revert (ctx : IndexingContext) (gauge : Option Nat)
    (ptr : EthereumBlockPointer) (adapter : Except Nat (List BlockInfo))
    (rres : Except Nat Unit) : RevertStep × List StoreAction :=
  match adapter with
  | .error _ => (.next ctx gauge, [])
  | .ok blocks =>
    match blocks with
    | [b] =>
      match b.parent_ptr with
      | none => (.panicked "genesis block cannot be reverted", [])
      | some parent =>
        match rres with
        | .error _ => (.next ctx gauge, [StoreAction.revert parent])
        | .ok _ =>
          (.next
            { ctx with state := { ctx.state with
                instance_ := revert_data_sources ctx.state.instance_ ptr.number,
                entity_lfu_cache := LfuCache.new } }
            (some ptr.number),
           [StoreAction.revert parent])
    | _ => (.panicked "assert_eq blocks.len 1", [])

/-- One event from the block stream together with the oracle responses its
handling will consume: a block (with the cancel-handle state during its
processing, the process_block environment and the store.unfail response), a
revert (with the adapter's load_blocks response and the
revert_block_operations response), or a non-fatal stream error. -/
inductive StreamItem where
  | blockEvent (b : BlockInfo) (canceled : Bool) (env : ProcessBlockEnv)
      (unfail_res : Except Nat Unit)
  | revertEvent (ptr : EthereumBlockPointer) (adapter : Except Nat (List BlockInfo))
      (rres : Except Nat Unit)
  | errorEvent (e : Nat)

/-- Mutable state of run_subgraph across events and restarts: the indexing
context, the first_run flag (declared before the outer loop, so it survives
restarts), and the last value set on the reverted_blocks gauge. -/
structure RunState where
  ctx : IndexingContext
  first_run : Bool
  gauge : Option Nat

/-- How a modelled run of run_subgraph ends. -/
inductive RunOutcome where
  | finishedOk
  | finishedErr
  | panicked (s : String)
  | outOfEvents
  | modelOut

/-- run_subgraph's event loop over a finite prefix of stream events (restarts
rebuild the stream; the oracle supplies the concatenated event sequence).
Block events invoke process_block; on the FIRST Ok result (whether or not
anything was committed) store.unfail is called once and first_run is cleared;
needs_restart only breaks to the outer loop. Canceled exits cleanly;
other errors call store.fail_subgraph with the error's determinism flag and
exit with an error. Revert events go through handle_revert; stream errors are
logged and skipped. -/
def run_subgraph : RunState → List StreamItem → RunOutcome × List StoreAction
  | _, [] => (.outOfEvents, [])
  | st, item :: rest =>
    match item with
    | .errorEvent _ => run_subgraph st rest
    | .revertEvent ptr adapter rres =>
      match handle_revert st.ctx st.gauge ptr adapter rres with
      | (.panicked s, tr) => (.panicked s, tr)
      | (.next ctx1 g1, tr) =>
        ((run_subgraph { st with ctx := ctx1, gauge := g1 } rest).1,
         tr ++ (run_subgraph { st with ctx := ctx1, gauge := g1 } rest).2)
    | .blockEvent b canceled env unfail_res =>
      match process_block st.ctx canceled b env with
      | (.panicked s, tr) => (.panicked s, tr)
      | (.fuelOut, tr) => (.modelOut, tr)
      | (.err e, tr) =>
        match e with
        | .canceled => (.finishedOk, tr)
        | e => (.finishedErr, tr ++ [.failSubgraph e.is_deterministic])
      | (.ok (c, _needs_restart), tr) =>
        if st.first_run then
          match unfail_res with
          | .error _ => (.finishedErr, tr ++ [StoreAction.unfail])
          | .ok _ =>
            ((run_subgraph { st with ctx := c, first_run := false } rest).1,
             tr ++ StoreAction.unfail ::
               (run_subgraph { st with ctx := c, first_run := false } rest).2)
        else
          ((run_subgraph { st with ctx := c } rest).1,
           tr ++ (run_subgraph { st with ctx := c } rest).2)

/-- Fleet-level state of the SubgraphInstanceManager: the registry of cancel
guards keyed by deployment id (guards are opaque numbers) and the
deployment_count gauge. -/
structure ManagerState where
  instances : List (Nat × Nat)
  subgraph_count : Int
deriving DecidableEq

/-- stop_subgraph: remove the cancel guard for the id from the registry
(dropping it shuts the stream down) and decrement the deployment_count
gauge. The decrement is unconditional in the source. -/
def stop_subgraph (st : ManagerState) (id : Nat) : ManagerState :=
  { instances := st.instances.filter (fun p => !(p.1 == id)),
    subgraph_count := st.subgraph_count - 1 }

/-- An empty indexing context for concrete witnesses. -/
def ctx0 : IndexingContext :=
  { inputs := { deployment_id := 0, features := [] },
    state := { instance_ := [], log_filter := [], call_filter := [],
               block_filter := [], entity_lfu_cache := [] } }

/-- A concrete block for witnesses: number 103, one trigger. -/
def b0 : BlockInfo :=
  { ptr := { number := 103, hash := 1 }, parent_hash := 0, triggers := [0] }

/-- A benign process_block environment: no POI, every trigger succeeds
without effects, no dynamic rounds, empty modifications, all store calls
succeed, fail-fast enabled, deployment synced. -/
def envBase : ProcessBlockEnv :=
  { supports_poi := .ok false,
    dispatch := fun _ bs => .ok bs,
    rounds := [],
    update_poi := fun ec => .ok ec,
    as_modifications := fun _ => .ok ([], [], []),
    evict := fun c => c,
    transact := .ok (),
    disable_fail_fast := false,
    is_deployment_synced := .ok true,
    unassign := .ok () }

/-- An environment whose primary dispatch reports a possible reorg on the
first trigger. -/
def envReorg : ProcessBlockEnv :=
  { envBase with dispatch := fun _ _ => .error (.possibleReorg 0) }

/-- An environment for the fail-fast path: the deployment is not yet synced. -/
def envNotSynced : ProcessBlockEnv :=
  { envBase with is_deployment_synced := .ok false }

/-- Initial run state: fresh context, first_run = true, gauge never set. -/
def st0 : RunState := { ctx := ctx0, first_run := true, gauge := none }

/-- A concrete deterministic subgraph error. -/
def err0 : SubgraphError := { message := 0, deterministic := true }

/-- A fresh block state over an empty cache. -/
def bs0 : BlockState := BlockState.new []

/-- A block state carrying one deterministic error. -/
def bsErr : BlockState := { bs0 with deterministic_errors := [err0] }

/-- A dynamic data source created at block 50 (survives a revert of 103). -/
def dsOld : DataSource := { name := 1, created_at := 50 }

/-- A dynamic data source created at block 103 (dropped by a revert of 103). -/
def dsNew : DataSource := { name := 2, created_at := 103 }

/-- A context holding runtime hosts for dsOld and dsNew and a non-empty
LFU cache, for the revert witnesses. -/
def ctxRev : IndexingContext :=
  { ctx0 with state := { ctx0.state with
      instance_ := [dsOld, dsNew], entity_lfu_cache := [(7, some 7)] } }

/-- The reverted block pointer used by the revert witnesses. -/
def ptrRev : EthereumBlockPointer := { number := 103, hash := 5 }

/-- The block the adapter returns for ptrRev: same number and hash, parent
hash 9 (so the parent pointer is (102, 9)). -/
def bRev : BlockInfo := { ptr := ptrRev, parent_hash := 9, triggers := [] }

/-- The genesis block, which has no parent pointer. -/
def bGen : BlockInfo :=
  { ptr := { number := 0, hash := 0 }, parent_hash := 0, triggers := [] }

/-- A stream item whose block raises PossibleReorg in primary dispatch and
whose unfail call succeeds. -/
def itemReorg : StreamItem := .blockEvent b0 false envReorg (.ok ())

/-- The context process_block returns for ctx0 on the PossibleReorg path:
unchanged except for the empty placeholder cache. -/
def ctxReorgAfter : IndexingContext :=
  { ctx0 with state := { ctx0.state with entity_lfu_cache := LfuCache.new } }

/-- An environment whose (only) trigger leaves one deterministic error in the
block state. -/
def envDetErr : ProcessBlockEnv :=
  { envBase with
    dispatch := fun _ bs => .ok { bs with deterministic_errors := [err0] } }

/-- add_dynamic_data_source leaves the inputs and the LFU cache untouched. -/
theorem add_dds_preserves (ctx ctx1 : IndexingContext) (ds : DataSource)
    (h : add_dynamic_data_source ctx ds = some ctx1) :
    ctx1.inputs = ctx.inputs ∧
    ctx1.state.entity_lfu_cache = ctx.state.entity_lfu_cache := by
  unfold add_dynamic_data_source at h
  split at h
  · simp at h
  · simp only [Option.some.injEq] at h
    subst h
    exact ⟨rfl, rfl⟩

/-- create_dynamic_data_sources leaves the inputs and the LFU cache
untouched. -/
theorem create_dds_preserves (r : DynRound) :
    ∀ (infos : List DataSourceTemplateInfo) (ctx ctx1 : IndexingContext)
      (dss : List DataSource),
      create_dynamic_data_sources r ctx infos = .ok (ctx1, dss) →
      ctx1.inputs = ctx.inputs ∧
      ctx1.state.entity_lfu_cache = ctx.state.entity_lfu_cache := by
  intro infos
  induction infos with
  | nil =>
    intro ctx ctx1 dss h
    simp only [create_dynamic_data_sources, Except.ok.injEq, Prod.mk.injEq] at h
    obtain ⟨h1, _⟩ := h
    subst h1
    exact ⟨rfl, rfl⟩
  | cons info rest ih =>
    intro ctx ctx1 dss h
    unfold create_dynamic_data_sources at h
    cases htf : r.try_from info with
    | error e => rw [htf] at h; simp at h
    | ok ds =>
      rw [htf] at h
      dsimp only at h
      cases hadd : add_dynamic_data_source ctx ds with
      | none =>
        rw [hadd] at h
        dsimp only at h
        exact ih ctx ctx1 dss h
      | some ctxA =>
        rw [hadd] at h
        dsimp only at h
        cases hrec : create_dynamic_data_sources r ctxA rest with
        | error e => rw [hrec] at h; simp at h
        | ok p =>
          obtain ⟨ctxB, dssB⟩ := p
          rw [hrec] at h
          dsimp only at h
          simp only [Except.ok.injEq, Prod.mk.injEq] at h
          obtain ⟨h1, _⟩ := h
          subst h1
          obtain ⟨ha1, ha2⟩ := add_dds_preserves ctx ctxA ds hadd
          obtain ⟨hb1, hb2⟩ := ih ctxA ctxB dssB hrec
          exact ⟨hb1.trans ha1, hb2.trans ha2⟩

/-- persist_dynamic_data_sources leaves the inputs and the LFU cache
untouched. -/
theorem persist_preserves (ctx : IndexingContext) (bs : BlockState)
    (dss : List DataSource) :
    (persist_dynamic_data_sources ctx bs dss).1.inputs = ctx.inputs ∧
    (persist_dynamic_data_sources ctx bs dss).1.state.entity_lfu_cache =
      ctx.state.entity_lfu_cache :=
  ⟨rfl, rfl⟩

/-- The dynamic-data-source loop leaves the inputs and the LFU cache
untouched. -/
theorem dyn_loop_preserves :
    ∀ (rounds : List DynRound) (ctx : IndexingContext) (bs : BlockState)
      (ctx1 : IndexingContext) (bs1 : BlockState),
      dyn_loop ctx bs rounds = .done ctx1 bs1 →
      ctx1.inputs = ctx.inputs ∧
      ctx1.state.entity_lfu_cache = ctx.state.entity_lfu_cache := by
  intro rounds
  induction rounds with
  | nil =>
    intro ctx bs ctx1 bs1 h
    unfold dyn_loop at h
    split at h
    · simp at h
    · simp only [DynResult.done.injEq] at h
      obtain ⟨h1, _⟩ := h
      subst h1
      exact ⟨rfl, rfl⟩
  | cons r rest ih =>
    intro ctx bs ctx1 bs1 h
    unfold dyn_loop at h
    split at h
    · dsimp only at h
      cases hc : create_dynamic_data_sources r ctx bs.created_data_sources with
      | error e => rw [hc] at h; simp at h
      | ok p =>
        obtain ⟨ctxA, dss⟩ := p
        rw [hc] at h
        dsimp only at h
        cases ht : r.triggers_in_block with
        | error e => rw [ht] at h; simp at h
        | ok triggers =>
          rw [ht] at h
          dsimp only at h
          cases hd : process_dyn_triggers r.dispatch triggers
              (persist_dynamic_data_sources ctxA
                { bs with created_data_sources := [] } dss).2 with
          | error e => rw [hd] at h; simp at h
          | ok bs2 =>
            rw [hd] at h
            dsimp only at h
            obtain ⟨h1, h2⟩ := ih _ bs2 ctx1 bs1 h
            obtain ⟨hp1, hp2⟩ := persist_preserves ctxA
              { bs with created_data_sources := [] } dss
            obtain ⟨hc1, hc2⟩ := create_dds_preserves r bs.created_data_sources
              ctx ctxA dss hc
            exact ⟨(h1.trans hp1).trans hc1, (h2.trans hp2).trans hc2⟩
    · simp only [DynResult.done.injEq] at h
      obtain ⟨h1, _⟩ := h
      subst h1
      exact ⟨rfl, rfl⟩

/-- The commit stage never panics. -/
theorem taff_fst_ne_panicked (ctx : IndexingContext) (nr he : Bool)
    (bp : EthereumBlockPointer) (mods : List Nat) (dss : List DataSource)
    (errors : List SubgraphError) (env : ProcessBlockEnv) :
    ∀ s, (transact_and_fail_fast ctx nr he bp mods dss errors env).1 ≠
      Outcome.panicked s := by
  intro s
  unfold transact_and_fail_fast
  repeat' split
  all_goals simp

/-- The commit stage never calls unfail. -/
theorem taff_countUnfail (ctx : IndexingContext) (nr he : Bool)
    (bp : EthereumBlockPointer) (mods : List Nat) (dss : List DataSource)
    (errors : List SubgraphError) (env : ProcessBlockEnv) :
    countUnfail (transact_and_fail_fast ctx nr he bp mods dss errors env).2 = 0 := by
  unfold transact_and_fail_fast
  repeat' split
  all_goals simp [countUnfail, StoreAction.isUnfail]

/-- finish_block never panics when the placeholder cache in the context is
empty: the guarded unwrap of the first deterministic error cannot fire, and
the cache reinstatement assertion holds. -/
theorem finish_block_fst_ne_panicked (ctx : IndexingContext) (bs : BlockState)
    (nr poi canceled : Bool) (bp : EthereumBlockPointer) (env : ProcessBlockEnv)
    (hc : ctx.state.entity_lfu_cache.isEmpty = true) :
    ∀ s, (finish_block ctx bs nr poi canceled bp env).1 ≠ Outcome.panicked s := by
  intro s
  unfold finish_block
  split
  case isTrue hg =>
    cases herr : bs.deterministic_errors with
    | nil =>
      exfalso
      rw [BlockState.has_errors, herr] at hg
      simp at hg
    | cons e es => simp
  case isFalse hg =>
    split
    · simp
    · cases hpoi : (if poi then env.update_poi bs.entity_cache
          else Except.ok bs.entity_cache) with
      | error e => simp
      | ok ec =>
        dsimp only
        cases ham : env.as_modifications ec with
        | error e => dsimp only; simp
        | ok p =>
          obtain ⟨mods, dss, nc⟩ := p
          dsimp only
          exact taff_fst_ne_panicked _ _ _ _ _ _ _ _ s

/-- finish_block never calls unfail. -/
theorem finish_block_countUnfail (ctx : IndexingContext) (bs : BlockState)
    (nr poi canceled : Bool) (bp : EthereumBlockPointer) (env : ProcessBlockEnv) :
    countUnfail (finish_block ctx bs nr poi canceled bp env).2 = 0 := by
  unfold finish_block
  split
  · split <;> simp [countUnfail]
  · split
    · simp [countUnfail]
    · cases hpoi : (if poi then env.update_poi bs.entity_cache
          else Except.ok bs.entity_cache) with
      | error e => simp [countUnfail]
      | ok ec =>
        dsimp only
        cases ham : env.as_modifications ec with
        | error e => dsimp only; simp [countUnfail]
        | ok p =>
          obtain ⟨mods, dss, nc⟩ := p
          dsimp only
          split
          · exact taff_countUnfail _ _ _ _ _ _ _ _
          · simp [countUnfail]

/-- With the cancel handle set, finish_block performs no store mutation at
all: either the deterministic-error gate fires first (still before any store
call) or the cancellation point returns Canceled before the commit. -/
theorem finish_block_canceled_snd (ctx : IndexingContext) (bs : BlockState)
    (nr poi : Bool) (bp : EthereumBlockPointer) (env : ProcessBlockEnv) :
    (finish_block ctx bs nr poi true bp env).2 = [] := by
  unfold finish_block
  split
  · split <;> simp
  · simp

/-- process_block never calls unfail: unfail is the run loop's, not the block
processor's. -/
theorem process_block_countUnfail (ctx : IndexingContext) (canceled : Bool)
    (block : BlockInfo) (env : ProcessBlockEnv) :
    countUnfail (process_block ctx canceled block env).2 = 0 := by
  unfold process_block
  cases hpoi : env.supports_poi with
  | error e => simp [countUnfail]
  | ok poi =>
    dsimp only
    cases hpt : process_triggers env.dispatch block.triggers
        (BlockState.new ctx.state.entity_lfu_cache) with
    | error me => cases me <;> simp [countUnfail]
    | ok bs =>
      dsimp only
      cases hdl : dyn_loop
          { ctx with state := { ctx.state with entity_lfu_cache := LfuCache.new } }
          bs env.rounds with
      | out => simp [countUnfail]
      | fail e => simp [countUnfail]
      | done ctx2 bs2 =>
        dsimp only
        exact finish_block_countUnfail _ _ _ _ _ _ _

/-- With the cancel handle set throughout, process_block performs no store
mutation at all. -/
theorem process_block_canceled_snd (ctx : IndexingContext) (block : BlockInfo)
    (env : ProcessBlockEnv) :
    (process_block ctx true block env).2 = [] := by
  unfold process_block
  cases hpoi : env.supports_poi with
  | error e => rfl
  | ok poi =>
    dsimp only
    cases hpt : process_triggers env.dispatch block.triggers
        (BlockState.new ctx.state.entity_lfu_cache) with
    | error me => cases me <;> rfl
    | ok bs =>
      dsimp only
      cases hdl : dyn_loop
          { ctx with state := { ctx.state with entity_lfu_cache := LfuCache.new } }
          bs env.rounds with
      | out => rfl
      | fail e => rfl
      | done ctx2 bs2 =>
        dsimp only
        exact finish_block_canceled_snd _ _ _ _ _ _

/-- Claim C9: during block processing the EntityLfuCache is moved out of the
IndexingContext at BlockState construction, leaving an empty placeholder; no
code path writes to that placeholder before commit, so the source's
assertion at cache reinstatement (assert! ctx.state.entity_lfu_cache
.is_empty()) can never fire, and neither can the guarded unwrap of the first
deterministic error: process_block never reaches a panic, for any context,
cancel state, block and collaborator behaviour. -/
theorem c9_cache_placeholder_assertion_holds (ctx : IndexingContext)
    (canceled : Bool) (block : BlockInfo) (env : ProcessBlockEnv) (s : String) :
    (process_block ctx canceled block env).1 ≠ Outcome.panicked s := by
  unfold process_block
  cases hpoi : env.supports_poi with
  | error e => simp
  | ok poi =>
    dsimp only
    cases hpt : process_triggers env.dispatch block.triggers
        (BlockState.new ctx.state.entity_lfu_cache) with
    | error me => cases me <;> simp
    | ok bs =>
      dsimp only
      cases hdl : dyn_loop
          { ctx with state := { ctx.state with entity_lfu_cache := LfuCache.new } }
          bs env.rounds with
      | out => simp
      | fail e => simp
      | done ctx2 bs2 =>
        dsimp only
        apply finish_block_fst_ne_panicked
        have h := dyn_loop_preserves env.rounds _ bs ctx2 bs2 hdl
        rw [h.2]
        rfl

/-- Claim C3: if the primary trigger dispatch of a block reports
MappingError::PossibleReorg, process_block returns Ok with needs_restart =
true and a context unchanged except that its EntityLfuCache is the empty
placeholder left by std::mem::take, and it performs no store mutation at all
(empty trace: no transact, no POI write reaches the store, no unassign). -/
theorem c3_possible_reorg_primary (ctx : IndexingContext) (canceled : Bool)
    (block : BlockInfo) (env : ProcessBlockEnv) (b : Bool) (e : Nat)
    (hpoi : env.supports_poi = .ok b)
    (hdisp : process_triggers env.dispatch block.triggers
      (BlockState.new ctx.state.entity_lfu_cache) = .error (.possibleReorg e)) :
    process_block ctx canceled block env =
      (.ok ({ ctx with state :=
          { ctx.state with entity_lfu_cache := LfuCache.new } }, true), []) := by
  unfold process_block
  rw [hpoi]
  dsimp only
  rw [hdisp]

/-- Witness for C3 at a concrete input. -/
theorem c3_possible_reorg_primary_witness :
    process_block ctx0 false b0 envReorg =
      (.ok ({ ctx0 with state :=
          { ctx0.state with entity_lfu_cache := LfuCache.new } }, true), []) :=
  c3_possible_reorg_primary ctx0 false b0 envReorg false 0 rfl rfl

/-- Claim C4: during dynamic-data-source expansion (after new runtime hosts
were added to the context) a PossibleReorg is not recoverable: any error the
dispatch loop produces is BlockProcessingError::Unknown, and a trigger whose
dispatch reports PossibleReorg e (after a successfully dispatched prefix,
whose resulting state is bs) makes the loop fail with Unknown e rather than
produce the primary dispatch's needs_restart early return. -/
theorem c4_possible_reorg_promoted_in_expansion :
    (∀ (d : Nat → BlockState → Except MappingError BlockState)
       (ts : List Nat) (bs : BlockState) (e' : BlockProcessingError),
       process_dyn_triggers d ts bs = .error e' → ∃ x, e' = .unknown x) ∧
    (∀ (d : Nat → BlockState → Except MappingError BlockState)
       (t : Nat) (ts : List Nat) (bs : BlockState) (e : Nat),
       d t bs = .error (.possibleReorg e) →
       process_dyn_triggers d (t :: ts) bs = .error (.unknown e)) := by
  constructor
  · intro d ts
    induction ts with
    | nil =>
      intro bs e' h
      simp [process_dyn_triggers] at h
    | cons t ts ih =>
      intro bs e' h
      unfold process_dyn_triggers at h
      cases hd : d t bs with
      | error me =>
        rw [hd] at h
        cases me with
        | possibleReorg x =>
          dsimp only at h
          injection h with h2
          exact ⟨x, h2.symm⟩
        | unknown x =>
          dsimp only at h
          injection h with h2
          exact ⟨x, h2.symm⟩
      | ok bs1 =>
        rw [hd] at h
        exact ih bs1 e' h
  · intro d t ts bs e h
    unfold process_dyn_triggers
    rw [h]

/-- Witness for C4 at a concrete input. -/
theorem c4_possible_reorg_promoted_in_expansion_witness :
    (∃ x, BlockProcessingError.unknown 3 = BlockProcessingError.unknown x) ∧
    process_dyn_triggers (fun _ _ => .error (.possibleReorg 3)) [7, 8] bs0 =
      .error (.unknown 3) :=
  ⟨c4_possible_reorg_promoted_in_expansion.1 (fun _ _ => .error (.possibleReorg 3))
      [7, 8] bs0 (.unknown 3)
      (c4_possible_reorg_promoted_in_expansion.2
        (fun _ _ => .error (.possibleReorg 3)) 7 [8] bs0 3 rfl),
   c4_possible_reorg_promoted_in_expansion.2
      (fun _ _ => .error (.possibleReorg 3)) 7 [8] bs0 3 rfl⟩

/-- Claim C5: the cancellation point precedes the commit. If the cancel
handle reports canceled when control reaches the cancellation point (the
deterministic-error gate did not fire), finish_block returns Canceled with an
empty trace; and with the handle set, the whole of process_block performs no
transact_block_operations at all. -/
theorem c5_cancellation_before_commit :
    (∀ (ctx : IndexingContext) (bs : BlockState) (nr poi : Bool)
       (bp : EthereumBlockPointer) (env : ProcessBlockEnv),
       (bs.has_errors &&
         !(decide (SubgraphFeature.nonFatalErrors ∈ ctx.inputs.features))) = false →
       finish_block ctx bs nr poi true bp env = (.err .canceled, [])) ∧
    (∀ (ctx : IndexingContext) (block : BlockInfo) (env : ProcessBlockEnv),
       ((process_block ctx true block env).2).all (fun a => !a.isTransact) = true) := by
  constructor
  · intro ctx bs nr poi bp env hg
    unfold finish_block
    rw [hg]
    simp
  · intro ctx block env
    rw [process_block_canceled_snd]
    rfl

/-- Witness for C5 at a concrete input. -/
theorem c5_cancellation_before_commit_witness :
    finish_block ctx0 bs0 true false true { number := 104, hash := 2 } envBase =
      (.err .canceled, []) ∧
    ((process_block ctx0 true b0 envBase).2).all (fun a => !a.isTransact) = true :=
  ⟨c5_cancellation_before_commit.1 ctx0 bs0 true false
      { number := 104, hash := 2 } envBase rfl,
   c5_cancellation_before_commit.2 ctx0 b0 envBase⟩

/-- The deterministic-error gate of finish_block: errors present and
nonFatalErrors absent fail with Deterministic(first error) before any store
call, regardless of the cancel state. -/
theorem finish_block_gating (ctx : IndexingContext) (bs : BlockState)
    (nr poi canceled : Bool) (bp : EthereumBlockPointer) (env : ProcessBlockEnv)
    (e : SubgraphError) (es : List SubgraphError)
    (herr : bs.deterministic_errors = e :: es)
    (hfeat : SubgraphFeature.nonFatalErrors ∉ ctx.inputs.features) :
    finish_block ctx bs nr poi canceled bp env = (.err (.deterministic e), []) := by
  have hg : (bs.has_errors &&
      !(decide (SubgraphFeature.nonFatalErrors ∈ ctx.inputs.features))) = true := by
    simp [BlockState.has_errors, herr, hfeat]
  unfold finish_block
  rw [hg, herr]
  simp

/-- Claim C6: for a block whose (post-expansion) BlockState carries
deterministic errors (first error e), if the manifest does not declare the
nonFatalErrors feature, process_block returns Deterministic e and the block's
mutations are not committed to the store (empty trace). -/
theorem c6_deterministic_error_gating (ctx : IndexingContext) (canceled : Bool)
    (block : BlockInfo) (env : ProcessBlockEnv) (poi : Bool) (bs : BlockState)
    (ctx2 : IndexingContext) (bs2 : BlockState)
    (e : SubgraphError) (es : List SubgraphError)
    (hpoi : env.supports_poi = .ok poi)
    (hpt : process_triggers env.dispatch block.triggers
      (BlockState.new ctx.state.entity_lfu_cache) = .ok bs)
    (hdl : dyn_loop
      { ctx with state := { ctx.state with entity_lfu_cache := LfuCache.new } }
      bs env.rounds = .done ctx2 bs2)
    (herr : bs2.deterministic_errors = e :: es)
    (hfeat : SubgraphFeature.nonFatalErrors ∉ ctx.inputs.features) :
    process_block ctx canceled block env = (.err (.deterministic e), []) := by
  have hfeat2 : SubgraphFeature.nonFatalErrors ∉ ctx2.inputs.features := by
    rw [(dyn_loop_preserves env.rounds _ bs ctx2 bs2 hdl).1]
    exact hfeat
  unfold process_block
  rw [hpoi]
  dsimp only
  rw [hpt]
  dsimp only
  rw [hdl]
  dsimp only
  exact finish_block_gating ctx2 bs2 bs.has_created_data_sources poi canceled
    block.ptr env e es herr hfeat2

/-- Witness for C6 at a concrete input: a block with one trigger whose
handler records a deterministic error, features empty. -/
theorem c6_deterministic_error_gating_witness :
    process_block ctx0 false b0 envDetErr = (.err (.deterministic err0), []) :=
  c6_deterministic_error_gating ctx0 false b0 envDetErr false bsErr
    ctxReorgAfter bsErr err0 [] rfl (by rfl) (by rfl) rfl (by decide)

/-- Claim C7: after a successful transact of a block that carried
deterministic errors, if GRAPH_DISABLE_FAIL_FAST is unset and the deployment
is not yet synced, the processor calls store.unassign_subgraph and returns
Canceled (the error is already transacted); if fail-fast is disabled or the
deployment is synced, it returns Ok with the context and the restart flag,
and performs no unassign. -/
theorem c7_fail_fast :
    (∀ (ctx : IndexingContext) (nr : Bool) (bp : EthereumBlockPointer)
       (mods : List Nat) (dss : List DataSource) (errors : List SubgraphError)
       (env : ProcessBlockEnv),
       env.transact = .ok () → env.disable_fail_fast = false →
       env.is_deployment_synced = .ok false → env.unassign = .ok () →
       transact_and_fail_fast ctx nr true bp mods dss errors env =
         (.err .canceled, [StoreAction.transact bp mods dss errors, .unassign])) ∧
    (∀ (ctx : IndexingContext) (nr : Bool) (bp : EthereumBlockPointer)
       (mods : List Nat) (dss : List DataSource) (errors : List SubgraphError)
       (env : ProcessBlockEnv),
       env.transact = .ok () →
       (env.disable_fail_fast = true ∨ env.is_deployment_synced = .ok true) →
       transact_and_fail_fast ctx nr true bp mods dss errors env =
         (.ok (ctx, nr), [StoreAction.transact bp mods dss errors])) := by
  constructor
  · intro ctx nr bp mods dss errors env htr hdf hsync hun
    simp [transact_and_fail_fast, htr, hdf, hsync, hun]
  · intro ctx nr bp mods dss errors env htr h
    cases h with
    | inl hdf => simp [transact_and_fail_fast, htr, hdf]
    | inr hsync =>
      cases hdf : env.disable_fail_fast <;>
        simp [transact_and_fail_fast, htr, hdf, hsync]

/-- Witness for C7 at concrete inputs: one not-yet-synced deployment (errors
unassign and cancel) and one synced deployment (errors tolerated). -/
theorem c7_fail_fast_witness :
    transact_and_fail_fast ctx0 false true { number := 104, hash := 2 }
        [] [] [err0] envNotSynced =
      (.err .canceled,
       [StoreAction.transact { number := 104, hash := 2 } [] [] [err0], .unassign]) ∧
    transact_and_fail_fast ctx0 false true { number := 104, hash := 2 }
        [] [] [err0] envBase =
      (.ok (ctx0, false),
       [StoreAction.transact { number := 104, hash := 2 } [] [] [err0]]) :=
  ⟨c7_fail_fast.1 ctx0 false { number := 104, hash := 2 } [] [] [err0]
      envNotSynced rfl rfl rfl rfl,
   c7_fail_fast.2 ctx0 false { number := 104, hash := 2 } [] [] [err0]
      envBase rfl (Or.inr rfl)⟩

/-- Claim C2 counterexample: stopping a deployment id (5) that is unknown to
an empty registry is not a no-op — the deployment_count gauge is decremented
to -1 even though nothing was removed. -/
theorem c2_stop_counterexample :
    stop_subgraph { instances := [], subgraph_count := 0 } 5 ≠
      { instances := [], subgraph_count := 0 } := by
  decide

/-- Claim C2 (amended): stopping an unknown or already-stopped deployment id
leaves the registry unchanged, but it is not a complete no-op: the
deployment_count gauge is still decremented by one, unconditionally. -/
theorem c2_stop_amended (st : ManagerState) (id : Nat)
    (h : ∀ p ∈ st.instances, p.1 ≠ id) :
    (stop_subgraph st id).instances = st.instances ∧
    (stop_subgraph st id).subgraph_count = st.subgraph_count - 1 := by
  refine ⟨?_, rfl⟩
  unfold stop_subgraph
  dsimp only
  apply List.filter_eq_self.mpr
  intro p hp
  simpa using h p hp

/-- Witness for the amended C2 at a concrete input. -/
theorem c2_stop_amended_witness :
    (stop_subgraph { instances := [(1, 10)], subgraph_count := 3 } 5).instances =
      [(1, 10)] ∧
    (stop_subgraph { instances := [(1, 10)], subgraph_count := 3 } 5).subgraph_count =
      (3 : Int) - 1 :=
  c2_stop_amended { instances := [(1, 10)], subgraph_count := 3 } 5 (by decide)

/-- Claim C8: for a Revert(ptr) whose single-block fetch returns the block at
ptr's number and whose revert_block_operations succeeds, the handler truncates
dynamic data sources to those created at or before the parent's number
(= ptr.number - 1), replaces the EntityLfuCache with a fresh empty cache, sets
the reverted_blocks gauge to the reverted block's number, and continues; on a
fetch error or a revert error it continues with the in-memory state and gauge
unchanged. -/
theorem c8_revert_handler (ctx : IndexingContext) (gauge : Option Nat)
    (ptr : EthereumBlockPointer) (b : BlockInfo) (e e' : Nat)
    (rres : Except Nat Unit)
    (hn : b.ptr.number = ptr.number) (hpos : 0 < ptr.number) :
    (handle_revert ctx gauge ptr (.ok [b]) (.ok ()) =
      (.next { ctx with state := { ctx.state with
          instance_ := revert_data_sources ctx.state.instance_ ptr.number,
          entity_lfu_cache := LfuCache.new } } (some ptr.number),
       [StoreAction.revert { number := ptr.number - 1, hash := b.parent_hash }])) ∧
    (∀ ds ∈ revert_data_sources ctx.state.instance_ ptr.number,
       ds.created_at ≤ ptr.number - 1) ∧
    (handle_revert ctx gauge ptr (.error e) rres = (.next ctx gauge, [])) ∧
    (handle_revert ctx gauge ptr (.ok [b]) (.error e') =
      (.next ctx gauge,
       [StoreAction.revert { number := ptr.number - 1, hash := b.parent_hash }])) := by
  have hne : ¬ b.ptr.number = 0 := by omega
  refine ⟨?_, ?_, rfl, ?_⟩
  · unfold handle_revert BlockInfo.parent_ptr
    dsimp only
    rw [if_neg hne]
    dsimp only
    rw [hn]
  · intro ds hds
    unfold revert_data_sources at hds
    rw [List.mem_filter] at hds
    have h2 := hds.2
    simp only [decide_eq_true_eq] at h2
    omega
  · unfold handle_revert BlockInfo.parent_ptr
    dsimp only
    rw [if_neg hne]
    dsimp only
    rw [hn]

/-- Witness for C8 at a concrete input: hosts created at 50 and 103, revert
of block (103, 5) whose parent is (102, 9). -/
theorem c8_revert_handler_witness :
    (handle_revert ctxRev none ptrRev (.ok [bRev]) (.ok ()) =
      (.next { ctxRev with state := { ctxRev.state with
          instance_ := revert_data_sources ctxRev.state.instance_ ptrRev.number,
          entity_lfu_cache := LfuCache.new } } (some ptrRev.number),
       [StoreAction.revert { number := ptrRev.number - 1, hash := bRev.parent_hash }])) ∧
    (∀ ds ∈ revert_data_sources ctxRev.state.instance_ ptrRev.number,
       ds.created_at ≤ ptrRev.number - 1) ∧
    (handle_revert ctxRev none ptrRev (.error 0) (.ok ()) = (.next ctxRev none, [])) ∧
    (handle_revert ctxRev none ptrRev (.ok [bRev]) (.error 1) =
      (.next ctxRev none,
       [StoreAction.revert { number := ptrRev.number - 1, hash := bRev.parent_hash }])) :=
  c8_revert_handler ctxRev none ptrRev bRev 0 1 (.ok ()) rfl (by decide)

/-- Claim C10: the Revert handler's log-and-continue error path covers only
load_blocks and revert_block_operations errors; if load_blocks succeeds with
a block count other than one the assert_eq panics, and if it returns the
genesis block (no parent pointer) the expect panics. -/
theorem c10_revert_totality (ctx : IndexingContext) (gauge : Option Nat)
    (ptr : EthereumBlockPointer) (rres : Except Nat Unit) :
    (∀ blocks : List BlockInfo, blocks.length ≠ 1 →
       handle_revert ctx gauge ptr (.ok blocks) rres =
         (.panicked "assert_eq blocks.len 1", [])) ∧
    (∀ b : BlockInfo, b.ptr.number = 0 →
       handle_revert ctx gauge ptr (.ok [b]) rres =
         (.panicked "genesis block cannot be reverted", [])) ∧
    (∀ e : Nat, handle_revert ctx gauge ptr (.error e) rres = (.next ctx gauge, [])) := by
  refine ⟨?_, ?_, fun e => rfl⟩
  · intro blocks hlen
    cases blocks with
    | nil => rfl
    | cons b1 blocks2 =>
      cases blocks2 with
      | nil => exact absurd rfl hlen
      | cons b2 blocks3 => rfl
  · intro b h0
    unfold handle_revert BlockInfo.parent_ptr
    dsimp only
    rw [if_pos h0]

/-- Witness for C10 at concrete inputs: zero blocks, the genesis block, and a
fetch error. -/
theorem c10_revert_totality_witness :
    handle_revert ctx0 none ptrRev (.ok []) (.ok ()) =
      (.panicked "assert_eq blocks.len 1", []) ∧
    handle_revert ctx0 none ptrRev (.ok [bGen]) (.ok ()) =
      (.panicked "genesis block cannot be reverted", []) ∧
    handle_revert ctx0 none ptrRev (.error 4) (.ok ()) = (.next ctx0 none, []) :=
  ⟨(c10_revert_totality ctx0 none ptrRev (.ok ())).1 [] (by decide),
   (c10_revert_totality ctx0 none ptrRev (.ok ())).2.1 bGen rfl,
   (c10_revert_totality ctx0 none ptrRev (.ok ())).2.2 4⟩

/-- countUnfail distributes over trace concatenation. -/
theorem countUnfail_append (a b : List StoreAction) :
    countUnfail (a ++ b) = countUnfail a + countUnfail b := by
  simp [countUnfail, List.countP_append]

/-- countUnfail of a trace starting with an unfail. -/
theorem countUnfail_cons_unfail (l : List StoreAction) :
    countUnfail (StoreAction.unfail :: l) = countUnfail l + 1 := by
  simp [countUnfail, List.countP_cons, StoreAction.isUnfail]

/-- The Revert handler never calls unfail. -/
theorem handle_revert_countUnfail (ctx : IndexingContext) (gauge : Option Nat)
    (ptr : EthereumBlockPointer) (adapter : Except Nat (List BlockInfo))
    (rres : Except Nat Unit) :
    countUnfail (handle_revert ctx gauge ptr adapter rres).2 = 0 := by
  unfold handle_revert
  repeat' split
  all_goals simp [countUnfail, StoreAction.isUnfail]

/-- Across any modelled run of the event loop, store.unfail is called at most
once, and never when first_run is already cleared. -/
theorem run_subgraph_unfail_bound :
    ∀ (items : List StreamItem) (st : RunState),
      countUnfail (run_subgraph st items).2 ≤ if st.first_run then 1 else 0 := by
  intro items
  induction items with
  | nil =>
    intro st
    simp [run_subgraph, countUnfail]
  | cons item rest ih =>
    intro st
    cases item with
    | errorEvent e =>
      rw [run_subgraph]
      exact ih st
    | revertEvent ptr adapter rres =>
      rw [run_subgraph]
      have h0 := handle_revert_countUnfail st.ctx st.gauge ptr adapter rres
      rcases hr : handle_revert st.ctx st.gauge ptr adapter rres with ⟨step, tr⟩
      rw [hr] at h0
      dsimp only at h0
      cases step with
      | panicked s =>
        dsimp only
        simp [h0]
      | next ctx1 g1 =>
        dsimp only
        rw [countUnfail_append, h0]
        have hrec := ih { st with ctx := ctx1, gauge := g1 }
        simpa using hrec
    | blockEvent b canceled env unfail_res =>
      rw [run_subgraph]
      have h0 := process_block_countUnfail st.ctx canceled b env
      rcases hp : process_block st.ctx canceled b env with ⟨res, tr⟩
      rw [hp] at h0
      dsimp only at h0
      cases res with
      | panicked s =>
        dsimp only
        simp [h0]
      | fuelOut =>
        dsimp only
        simp [h0]
      | err e =>
        dsimp only
        cases e with
        | canceled => simp [h0]
        | unknown x =>
          rw [countUnfail_append, h0]
          simp [countUnfail, StoreAction.isUnfail]
        | deterministic x =>
          rw [countUnfail_append, h0]
          simp [countUnfail, StoreAction.isUnfail]
      | ok p =>
        obtain ⟨c, nr⟩ := p
        dsimp only
        cases hf : st.first_run with
        | true =>
          simp only [reduceIte]
          cases unfail_res with
          | error e =>
            dsimp only
            rw [countUnfail_append, h0]
            simp [countUnfail, StoreAction.isUnfail]
          | ok u =>
            dsimp only
            rw [countUnfail_append, countUnfail_cons_unfail, h0]
            have hrec : countUnfail
                (run_subgraph { st with ctx := c, first_run := false } rest).2 = 0 :=
              Nat.le_zero.mp (by simpa using ih { st with ctx := c, first_run := false })
            rw [hrec]
        | false =>
          simp only [Bool.false_eq_true, if_false]
          rw [countUnfail_append, h0]
          have hrec := ih { ctx := c, first_run := false, gauge := st.gauge }
          simpa using hrec

/-- Claim C1 (amended): in every modelled run of the indexing loop,
store.unfail is called at most once (never when first_run is already
cleared), and it is called exactly at the first Ok result of process_block —
whether or not that Ok carried a commit (the PossibleReorg early return also
returns Ok without any store mutation). -/
theorem c1_unfail_amended :
    (∀ (items : List StreamItem) (st : RunState),
       countUnfail (run_subgraph st items).2 ≤ if st.first_run then 1 else 0) ∧
    (∀ (st : RunState) (b : BlockInfo) (canceled : Bool) (env : ProcessBlockEnv)
       (rest : List StreamItem) (c : IndexingContext) (nr : Bool)
       (tr : List StoreAction),
       st.first_run = true →
       process_block st.ctx canceled b env = (.ok (c, nr), tr) →
       (run_subgraph st (.blockEvent b canceled env (.ok ()) :: rest)).2 =
         tr ++ StoreAction.unfail ::
           (run_subgraph { st with ctx := c, first_run := false } rest).2) := by
  constructor
  · exact run_subgraph_unfail_bound
  · intro st b canceled env rest c nr tr hfr hp
    rw [run_subgraph]
    dsimp only
    rw [hp]
    dsimp only
    rw [hfr]
    simp only [reduceIte]

/-- Witness for the amended C1 at a concrete input. -/
theorem c1_unfail_amended_witness :
    (run_subgraph st0 (.blockEvent b0 false envReorg (.ok ()) :: [])).2 =
      [] ++ StoreAction.unfail ::
        (run_subgraph { st0 with ctx := ctxReorgAfter, first_run := false } []).2 :=
  c1_unfail_amended.2 st0 b0 false envReorg [] ctxReorgAfter true [] rfl rfl

/-- Claim C1 counterexample: a run whose only (first) block event raises
PossibleReorg in primary dispatch commits nothing — the trace contains no
transact — yet store.unfail is called: the unfail call is tied to the first
Ok of process_block, not to the first successful commit. -/
theorem c1_unfail_counterexample :
    (run_subgraph st0 [itemReorg]).2 = [StoreAction.unfail] := by
  rfl
